import Mathlib

/-!
# The TGDB front-end protocol types (`lib/tgdb/tgdb_types.h`)

A shallow embedding of the enumerations, records and unions that
`tgdb_types.h` declares, followed by the properties of these declarations.

Conventions of the embedding:

* a C `enum` is an inductive type with one constructor per enumerator; the
  integer code of an enumerator is computed from the declaration list by the
  C rule (an explicit initialiser, otherwise the previous code plus one,
  starting from 0);
* `char *` is `Option String` (`none` is `NULL`); a stretchy array
  (`char **`, `struct tgdb_breakpoint *`) is a `List` (`[]` is `NULL`);
  a pointer to a record is an `Option` of the record;
* `int` is `Int`, `uint64_t` is `Nat`; no arithmetic is performed on them;
* a C `union` is an inductive type with one constructor per member: the
  constructor says which member was stored last.
-/

namespace Tgdb

/-! ## Enumerations -/

/-- C rule for enumerator codes: an enumerator with an initialiser takes that
value, one without takes the previous code plus one; `next` is the code the
next enumerator gets when it has no initialiser (0 at the start). -/
def enum_codes {α : Type} : Int → List (α × Option Int) → List (α × Int)
  | _, [] => []
  | next, (e, none) :: rest => (e, next) :: enum_codes (next + 1) rest
  | _, (e, some v) :: rest => (e, v) :: enum_codes (v + 1) rest

/-- The enumeration `enum tgdb_command_type` (lines 25-53). -/
inductive tgdb_command_type
  | TGDB_CONTINUE
  | TGDB_FINISH
  | TGDB_NEXT
  | TGDB_START
  | TGDB_RUN
  | TGDB_KILL
  | TGDB_STEP
  | TGDB_UNTIL
  | TGDB_UP
  | TGDB_DOWN
  deriving DecidableEq, Repr, Fintype

/-- The enumerators of `tgdb_command_type` in declaration order, each with its
initialiser when the header writes one (`TGDB_CONTINUE = 0`). -/
def tgdb_command_type.decl : List (tgdb_command_type × Option Int) :=
  [ (.TGDB_CONTINUE, some 0), (.TGDB_FINISH, none), (.TGDB_NEXT, none),
    (.TGDB_START, none), (.TGDB_RUN, none), (.TGDB_KILL, none),
    (.TGDB_STEP, none), (.TGDB_UNTIL, none), (.TGDB_UP, none),
    (.TGDB_DOWN, none) ]

/-- Integer codes of `tgdb_command_type`, by the C rule. -/
def tgdb_command_type.codes : List (tgdb_command_type × Int) :=
  enum_codes 0 tgdb_command_type.decl

/-- The enumeration `enum tgdb_breakpoint_action` (lines 59-66). -/
inductive tgdb_breakpoint_action
  | TGDB_BREAKPOINT_ADD
  | TGDB_TBREAKPOINT_ADD
  | TGDB_BREAKPOINT_DELETE
  deriving DecidableEq, Repr

/-- The enumeration `enum tgdb_request_type` (lines 117-140). -/
inductive tgdb_request_type
  | TGDB_REQUEST_CONSOLE_COMMAND
  | TGDB_REQUEST_INFO_SOURCES
  | TGDB_REQUEST_CURRENT_LOCATION
  | TGDB_REQUEST_DEBUGGER_COMMAND
  | TGDB_REQUEST_MODIFY_BREAKPOINT
  | TGDB_REQUEST_COMPLETE
  | TGDB_REQUEST_DISASSEMBLE_PC
  | TGDB_REQUEST_DISASSEMBLE_FUNC
  | TGDB_REQUEST_INFO_LINE
  deriving DecidableEq, Repr, Fintype

/-- The enumerators of `tgdb_request_type` in declaration order (none has an
initialiser). -/
def tgdb_request_type.decl : List (tgdb_request_type × Option Int) :=
  [ (.TGDB_REQUEST_CONSOLE_COMMAND, none), (.TGDB_REQUEST_INFO_SOURCES, none),
    (.TGDB_REQUEST_CURRENT_LOCATION, none), (.TGDB_REQUEST_DEBUGGER_COMMAND, none),
    (.TGDB_REQUEST_MODIFY_BREAKPOINT, none), (.TGDB_REQUEST_COMPLETE, none),
    (.TGDB_REQUEST_DISASSEMBLE_PC, none), (.TGDB_REQUEST_DISASSEMBLE_FUNC, none),
    (.TGDB_REQUEST_INFO_LINE, none) ]

/-- The values of `tgdb_request_type`, in declaration order. -/
def tgdb_request_type.values : List tgdb_request_type :=
  tgdb_request_type.decl.map Prod.fst

/-- The enumeration `enum tgdb_response_type` (lines 195-250). -/
inductive tgdb_response_type
  | TGDB_UPDATE_BREAKPOINTS
  | TGDB_UPDATE_FILE_POSITION
  | TGDB_UPDATE_SOURCE_FILES
  | TGDB_UPDATE_COMPLETIONS
  | TGDB_DISASSEMBLE_PC
  | TGDB_DISASSEMBLE_FUNC
  | TGDB_INFO_LINE
  | TGDB_UPDATE_CONSOLE_PROMPT_VALUE
  | TGDB_DEBUGGER_COMMAND_DELIVERED
  | TGDB_QUIT
  deriving DecidableEq, Repr, Fintype

/-- The enumerators of `tgdb_response_type` in declaration order (none has an
initialiser). -/
def tgdb_response_type.decl : List (tgdb_response_type × Option Int) :=
  [ (.TGDB_UPDATE_BREAKPOINTS, none), (.TGDB_UPDATE_FILE_POSITION, none),
    (.TGDB_UPDATE_SOURCE_FILES, none), (.TGDB_UPDATE_COMPLETIONS, none),
    (.TGDB_DISASSEMBLE_PC, none), (.TGDB_DISASSEMBLE_FUNC, none),
    (.TGDB_INFO_LINE, none), (.TGDB_UPDATE_CONSOLE_PROMPT_VALUE, none),
    (.TGDB_DEBUGGER_COMMAND_DELIVERED, none), (.TGDB_QUIT, none) ]

/-- The values of `tgdb_response_type`, in declaration order. -/
def tgdb_response_type.values : List tgdb_response_type :=
  tgdb_response_type.decl.map Prod.fst

/-- The identifier of each enumerator of `tgdb_response_type`, as written in
the header. -/
def tgdb_response_type.ident : tgdb_response_type → String
  | .TGDB_UPDATE_BREAKPOINTS => "TGDB_UPDATE_BREAKPOINTS"
  | .TGDB_UPDATE_FILE_POSITION => "TGDB_UPDATE_FILE_POSITION"
  | .TGDB_UPDATE_SOURCE_FILES => "TGDB_UPDATE_SOURCE_FILES"
  | .TGDB_UPDATE_COMPLETIONS => "TGDB_UPDATE_COMPLETIONS"
  | .TGDB_DISASSEMBLE_PC => "TGDB_DISASSEMBLE_PC"
  | .TGDB_DISASSEMBLE_FUNC => "TGDB_DISASSEMBLE_FUNC"
  | .TGDB_INFO_LINE => "TGDB_INFO_LINE"
  | .TGDB_UPDATE_CONSOLE_PROMPT_VALUE => "TGDB_UPDATE_CONSOLE_PROMPT_VALUE"
  | .TGDB_DEBUGGER_COMMAND_DELIVERED => "TGDB_DEBUGGER_COMMAND_DELIVERED"
  | .TGDB_QUIT => "TGDB_QUIT"

/-! ## Records -/

/-- The record `struct tgdb_breakpoint` (lines 69-83). -/
structure tgdb_breakpoint where
  path : Option String
  line : Int
  addr : Nat
  enabled : Int
  deriving DecidableEq, Repr

/-- The record `struct tgdb_file_position` (lines 94-115). The C field `from` is written
`from_` here. -/
structure tgdb_file_position where
  path : Option String
  line_number : Int
  addr : Nat
  from_ : Option String
  func : Option String
  deriving DecidableEq, Repr

/-! ## Requests -/

/-- The anonymous union `choice` of `struct tgdb_request` (lines 146-185):
one constructor per member, carrying the fields of that member. -/
inductive tgdb_request_choice
  | console_command (command : Option String)
  | debugger_command (c : tgdb_command_type)
  | modify_breakpoint (file : Option String) (line : Int) (addr : Nat)
      (b : tgdb_breakpoint_action)
  | complete (line : Option String)
  | disassemble (lines : Int)
  | disassemble_func (source : Int) (raw : Int)
  | info_line (location : Option String)
  deriving DecidableEq, Repr

/-- The record `struct tgdb_request` (lines 142-186). -/
structure tgdb_request where
  header : tgdb_request_type
  choice : tgdb_request_choice
  deriving DecidableEq, Repr

/-! ## Responses -/

/-- The anonymous union `choice` of `struct tgdb_response` (lines 261-348):
one constructor per member, in declaration order, carrying the fields of that
member. -/
inductive tgdb_response_choice
  | update_breakpoints (breakpoints : List tgdb_breakpoint)
  | update_file_position (file_position : Option tgdb_file_position)
  | update_source_files (source_files : List String)
  | inferior_exited (exit_status : Int)
  | update_completions (completions : List String)
  | disassemble_function (addr_start : Nat) (addr_end : Nat) (error : Int)
      (disasm : List String)
  | info_line (error : Int) (file : Option String) (line : Nat) (addr_start : Nat)
  | update_console_prompt_value (prompt_value : Option String)
  | debugger_command_delivered (debugger_command : Int) (command : Option String)
  | quit (exit_status : Int) (return_value : Int)
  deriving DecidableEq, Repr

/-- The record `struct tgdb_response` (lines 257-349): a header and a payload union,
two independent fields. -/
structure tgdb_response where
  header : tgdb_response_type
  choice : tgdb_response_choice
  deriving DecidableEq, Repr

/-- The names of the members of the union `tgdb_response.choice`, in
declaration order. -/
inductive choice_member
  | update_breakpoints
  | update_file_position
  | update_source_files
  | inferior_exited
  | update_completions
  | disassemble_function
  | info_line
  | update_console_prompt_value
  | debugger_command_delivered
  | quit
  deriving DecidableEq, Repr, Fintype

/-- All members of the union, in declaration order. -/
def choice_member.all : List choice_member :=
  [ .update_breakpoints, .update_file_position, .update_source_files,
    .inferior_exited, .update_completions, .disassemble_function, .info_line,
    .update_console_prompt_value, .debugger_command_delivered, .quit ]

/-- The header named by the comment `header == ...` that precedes each
member of the union (lines 262, 269, 274, 281, 286, 293, 301, 309, 315, 332). -/
def choice_member.declared_header : choice_member → String
  | .update_breakpoints => "TGDB_UPDATE_BREAKPOINTS"
  | .update_file_position => "TGDB_UPDATE_FILE_POSITION"
  | .update_source_files => "TGDB_UPDATE_SOURCE_FILES"
  | .inferior_exited => "TGDB_INFERIOR_EXITED"
  | .update_completions => "TGDB_UPDATE_COMPLETIONS"
  | .disassemble_function => "TGDB_DISASSEMBLE_FUNC"
  | .info_line => "TGDB_INFO_LINE"
  | .update_console_prompt_value => "TGDB_UPDATE_CONSOLE_PROMPT_VALUE"
  | .debugger_command_delivered => "TGDB_DEBUGGER_COMMAND_DELIVERED"
  | .quit => "TGDB_QUIT"

/-- The member of a stored payload. -/
def tgdb_response_choice.member : tgdb_response_choice → choice_member
  | .update_breakpoints _ => .update_breakpoints
  | .update_file_position _ => .update_file_position
  | .update_source_files _ => .update_source_files
  | .inferior_exited _ => .inferior_exited
  | .update_completions _ => .update_completions
  | .disassemble_function _ _ _ _ => .disassemble_function
  | .info_line _ _ _ _ => .info_line
  | .update_console_prompt_value _ => .update_console_prompt_value
  | .debugger_command_delivered _ _ => .debugger_command_delivered
  | .quit _ _ => .quit

/-- The payload member declared for a response kind: the first member of the
union whose `header == ...` comment names the kind, if there is one. -/
def payload_member (k : tgdb_response_type) : Option choice_member :=
  choice_member.all.find? (fun m => m.declared_header == k.ident)

/-- The payload member declared for a header is the one the response holds. -/
def tgdb_response.matches_header (r : tgdb_response) : Prop :=
  payload_member r.header = some r.choice.member

instance (r : tgdb_response) : Decidable r.matches_header := by
  unfold tgdb_response.matches_header; infer_instance

/-! ## Response factory and release

The header only declares `tgdb_create_response` and `tgdb_delete_response`
(lines 351-352); their bodies are in a file that is not part of this
development. -/

/-- The all-zero value of each member of the union: every sequence empty,
every pointer `NULL`, every number 0. -/
def choice_member.zero : choice_member → tgdb_response_choice
  | .update_breakpoints => .update_breakpoints []
  | .update_file_position => .update_file_position none
  | .update_source_files => .update_source_files []
  | .inferior_exited => .inferior_exited 0
  | .update_completions => .update_completions []
  | .disassemble_function => .disassemble_function 0 0 0 []
  | .info_line => .info_line 0 none 0 0
  | .update_console_prompt_value => .update_console_prompt_value none
  | .debugger_command_delivered => .debugger_command_delivered 0 none
  | .quit => .quit 0 0

/-- A text pointer is `NULL`. -/
def text_is_null (t : Option String) : Bool := t.isNone

/-- Every pointer or sequence field of the stored member is `NULL`/empty and
every numeric field is 0. -/
def tgdb_response_choice.is_zero : tgdb_response_choice → Bool
  | .update_breakpoints breakpoints => breakpoints.isEmpty
  | .update_file_position file_position => file_position.isNone
  | .update_source_files source_files => source_files.isEmpty
  | .inferior_exited exit_status => exit_status == 0
  | .update_completions completions => completions.isEmpty
  | .disassemble_function addr_start addr_end error disasm =>
      addr_start == 0 && addr_end == 0 && error == 0 && disasm.isEmpty
  | .info_line error file line addr_start =>
      error == 0 && text_is_null file && line == 0 && addr_start == 0
  | .update_console_prompt_value prompt_value => text_is_null prompt_value
  | .debugger_command_delivered debugger_command command =>
      debugger_command == 0 && text_is_null command
  | .quit exit_status return_value => exit_status == 0 && return_value == 0

/-- Modelled from the spec: the allocator behind "allocates a response" and
"frees every owned element" (spec 4.2), reduced to the number of blocks
currently allocated. -/
structure Heap where
  live : Nat
  deriving DecidableEq, Repr

/-- Blocks held by a text pointer: one when it is not `NULL`. -/
def text_blocks (t : Option String) : Nat := if t.isSome then 1 else 0

/-- Blocks held by a sequence of strings: the array itself when it is not
`NULL`, and one per string. -/
def strings_blocks (l : List String) : Nat := if l.isEmpty then 0 else 1 + l.length

/-- Blocks held by a sequence of breakpoints: the array itself when it is not
`NULL`, and the path of each breakpoint. -/
def breakpoints_blocks (l : List tgdb_breakpoint) : Nat :=
  if l.isEmpty then 0 else 1 + (l.map (fun b => text_blocks b.path)).sum

/-- Blocks held by a file position pointer: the record and its three texts. -/
def file_position_blocks : Option tgdb_file_position → Nat
  | none => 0
  | some fp => 1 + text_blocks fp.path + text_blocks fp.from_ + text_blocks fp.func

/-- Modelled from the spec: the blocks a payload owns, "every owned
string/sequence/element" (spec 3, lifecycle): each text that is not `NULL`,
each sequence that is not `NULL` with its elements, the file position. -/
def tgdb_response_choice.owned_blocks : tgdb_response_choice → Nat
  | .update_breakpoints breakpoints => breakpoints_blocks breakpoints
  | .update_file_position file_position => file_position_blocks file_position
  | .update_source_files source_files => strings_blocks source_files
  | .inferior_exited _ => 0
  | .update_completions completions => strings_blocks completions
  | .disassemble_function _ _ _ disasm => strings_blocks disasm
  | .info_line _ file _ _ => text_blocks file
  | .update_console_prompt_value prompt_value => text_blocks prompt_value
  | .debugger_command_delivered _ command => text_blocks command
  | .quit _ _ => 0

/-- Modelled from the spec: the body of `tgdb_create_response` (declared on
line 351, defined outside this header). Spec 4.2: "allocates a response with
the given discriminant and a zero/empty payload appropriate to that kind
(empty sequences, null optional text, zero numeric fields)". The payload
appropriate to a kind is the zero value of the member declared for it; a kind
with no declared member has no payload, and its union is the zeroed storage,
written here as the zero value of the first member. One block, the envelope,
is allocated. Allocation exhaustion, which the spec calls fatal, is outside
the model. -/
def tgdb_create_response (header : tgdb_response_type) (h : Heap) : tgdb_response × Heap :=
  ({ header := header,
     choice := match payload_member header with
       | some m => m.zero
       | none => choice_member.zero .update_breakpoints },
   { live := h.live + 1 })

/-- Modelled from the spec: the walk of `tgdb_delete_response` over "the
payload for the response's discriminant" (spec 4.2). It yields the number of
blocks the payload owns; a kind with no declared member has nothing to walk;
reading the member declared for the header from a union that holds another
member is the invariant violation of spec 4.2 and yields `none`. -/
def tgdb_response.walk (r : tgdb_response) : Option Nat :=
  match payload_member r.header with
  | none => some 0
  | some m => if r.choice.member = m then some r.choice.owned_blocks else none

/-- Modelled from the spec: the body of `tgdb_delete_response` (declared on
line 352, defined outside this header). Spec 4.2: "walks the payload for the
response's discriminant and frees every owned element [...] then frees the
response envelope. Calling release on a null reference is a no-op that
succeeds". The result is the returned status (0 is success) and the heap
afterwards; `none` stands for the cases the spec leaves out of contract: a
payload that is not the one of the header, or freeing more blocks than are
allocated (a second release). -/
def tgdb_delete_response (response : Option tgdb_response) (h : Heap) : Option (Int × Heap) :=
  match response with
  | none => some (0, h)
  | some r =>
    match r.walk with
    | none => none
    | some owned =>
      if owned + 1 ≤ h.live then some (0, { live := h.live - (owned + 1) }) else none

/-! ## Event stream -/

/-- Modelled from the spec: the states of the event stream (spec 4.3); the
header has only the comment of `TGDB_QUIT`, "You will get no more responses
after this one". -/
inductive stream_state
  | Active
  | Terminated
  deriving DecidableEq, Repr

/-- Modelled from the spec: the error of spec 4.3 and 7. -/
inductive stream_error
  | ProtocolSequenceError
  deriving DecidableEq, Repr

/-- Modelled from the spec: the event stream between the backend and the
front end, its state and the responses delivered so far, oldest first. -/
structure event_stream where
  state : stream_state
  delivered : List tgdb_response
  deriving DecidableEq, Repr

/-- Modelled from the spec: "Initial state is Active at session start". -/
def event_stream.start : event_stream := { state := .Active, delivered := [] }

/-- Modelled from the spec: the transitions of spec 4.3, "Active
--produce(response where kind ≠ quit)--> Active; Active --produce(response
where kind = quit)--> Terminated. Terminated has no outgoing transitions —
producing or delivering any further response after quit is a protocol
violation, reported as ProtocolSequenceError, never silently dropped". -/
def event_stream.produce (s : event_stream) (r : tgdb_response) :
    Except stream_error event_stream :=
  match s.state with
  | .Terminated => .error .ProtocolSequenceError
  | .Active =>
    .ok { state := if r.header = .TGDB_QUIT then .Terminated else .Active,
          delivered := s.delivered ++ [r] }

/-- Modelled from the spec: producing a sequence of responses in generation
order, stopping at the first violation. -/
def event_stream.produce_all (s : event_stream) : List tgdb_response →
    Except stream_error event_stream
  | [] => .ok s
  | r :: rs =>
    match s.produce r with
    | .error e => .error e
    | .ok s1 => s1.produce_all rs

/-- A quit response occurs in the sequence only as its last element. -/
def quit_only_last : List tgdb_response → Bool
  | [] => true
  | [_] => true
  | r :: r1 :: rs => r.header != .TGDB_QUIT && quit_only_last (r1 :: rs)

/-- The sequence ends with a quit response. -/
def ends_with_quit (rs : List tgdb_response) : Bool :=
  match rs.getLast? with
  | some r => r.header == .TGDB_QUIT
  | none => false

/-! ## Request construction -/

/-- Modelled from the spec: the construction-time failures of spec 4.1 and 7. -/
inductive request_error
  | InvalidRequest
  | MissingField
  deriving DecidableEq, Repr

/-- Modelled from the spec: construction of a `tgdb_request` of kind
`TGDB_REQUEST_MODIFY_BREAKPOINT` (the header has the record only, no
constructor). Spec 4.1: "modify-breakpoint: fails if both file/line and addr
are absent"; the file/line pair is absent when `file` is `NULL` (`line` is
not optional), the address when `addr` is 0. Spec 8, scenario C, names the
failure `MissingField`. -/
def tgdb_request_modify_breakpoint (file : Option String) (line : Int) (addr : Nat)
    (b : tgdb_breakpoint_action) : Except request_error tgdb_request :=
  if file.isNone && addr == 0 then
    .error .MissingField
  else
    .ok { header := .TGDB_REQUEST_MODIFY_BREAKPOINT,
          choice := .modify_breakpoint file line addr b }

end Tgdb

/-! # Properties -/

namespace Tgdb

open tgdb_response_type tgdb_request_type tgdb_command_type

/-! ## The enumerations -/

/-- C7: `tgdb_response_type` has exactly the ten kinds update-breakpoints,
update-file-position, update-source-files, update-completions,
disassemble-pc, disassemble-func, info-line, update-console-prompt,
debugger-command-delivered and quit: the ten enumerators are pairwise
distinct, and every value of the enumeration is one of them. -/
theorem response_type_exactly_ten_kinds :
    tgdb_response_type.values =
      [TGDB_UPDATE_BREAKPOINTS, TGDB_UPDATE_FILE_POSITION, TGDB_UPDATE_SOURCE_FILES,
       TGDB_UPDATE_COMPLETIONS, TGDB_DISASSEMBLE_PC, TGDB_DISASSEMBLE_FUNC,
       TGDB_INFO_LINE, TGDB_UPDATE_CONSOLE_PROMPT_VALUE,
       TGDB_DEBUGGER_COMMAND_DELIVERED, TGDB_QUIT] ∧
    tgdb_response_type.values.Nodup ∧
    tgdb_response_type.values.length = 10 ∧
    (∀ k : tgdb_response_type, k ∈ tgdb_response_type.values) ∧
    Fintype.card tgdb_response_type = 10 := by
  refine ⟨rfl, by decide, rfl, ?_, rfl⟩
  intro k
  cases k <;> decide

/-- C8, as stated, fails: the discriminant `tgdb_request_type` does not have 8
values; already its first nine enumerators are pairwise distinct. -/
theorem request_type_not_eight_values :
    ¬ (Fintype.card tgdb_request_type = 8) ∧
    tgdb_request_type.values.length ≠ 8 ∧
    [TGDB_REQUEST_CONSOLE_COMMAND, TGDB_REQUEST_INFO_SOURCES,
      TGDB_REQUEST_CURRENT_LOCATION, TGDB_REQUEST_DEBUGGER_COMMAND,
      TGDB_REQUEST_MODIFY_BREAKPOINT, TGDB_REQUEST_COMPLETE,
      TGDB_REQUEST_DISASSEMBLE_PC, TGDB_REQUEST_DISASSEMBLE_FUNC,
      TGDB_REQUEST_INFO_LINE].Nodup := by
  refine ⟨by decide, by decide, by decide⟩

/-- C8, amended: the discriminant `tgdb_request_type` of `struct tgdb_request`
has exactly 9 distinct values (console-command, info-sources,
current-location, debugger-command, modify-breakpoint, complete,
disassemble-pc, disassemble-func, info-line). -/
theorem request_type_exactly_nine_values :
    tgdb_request_type.values =
      [TGDB_REQUEST_CONSOLE_COMMAND, TGDB_REQUEST_INFO_SOURCES,
       TGDB_REQUEST_CURRENT_LOCATION, TGDB_REQUEST_DEBUGGER_COMMAND,
       TGDB_REQUEST_MODIFY_BREAKPOINT, TGDB_REQUEST_COMPLETE,
       TGDB_REQUEST_DISASSEMBLE_PC, TGDB_REQUEST_DISASSEMBLE_FUNC,
       TGDB_REQUEST_INFO_LINE] ∧
    tgdb_request_type.values.Nodup ∧
    tgdb_request_type.values.length = 9 ∧
    (∀ k : tgdb_request_type, k ∈ tgdb_request_type.values) ∧
    Fintype.card tgdb_request_type = 9 := by
  refine ⟨rfl, by decide, rfl, ?_, rfl⟩
  intro k
  cases k <;> decide

/-- C9: `tgdb_command_type` is the closed enumeration of the ten commands
continue, finish, next, start, run, kill, step, until, up, down: the ten
enumerators are pairwise distinct, every value is one of them, and their
integer codes are 0 to 9 in that order. -/
theorem command_type_ten_commands_codes :
    tgdb_command_type.codes =
      [(TGDB_CONTINUE, 0), (TGDB_FINISH, 1), (TGDB_NEXT, 2), (TGDB_START, 3),
       (TGDB_RUN, 4), (TGDB_KILL, 5), (TGDB_STEP, 6), (TGDB_UNTIL, 7),
       (TGDB_UP, 8), (TGDB_DOWN, 9)] ∧
    (tgdb_command_type.codes.map Prod.fst).Nodup ∧
    (∀ c : tgdb_command_type, c ∈ tgdb_command_type.codes.map Prod.fst) ∧
    Fintype.card tgdb_command_type = 10 := by
  refine ⟨by decide, by decide, ?_, rfl⟩
  intro c
  cases c <;> decide

/-! ## Headers and payload members -/

/-- C10: the map from response kinds to the payload members declared by the
`header == ...` comments is defined on every kind except
`TGDB_DISASSEMBLE_PC`, it is injective, and it is not a bijection: no kind
selects `inferior_exited`, whose comment names `TGDB_INFERIOR_EXITED`, which
is not an enumerator of `tgdb_response_type`. -/
theorem payload_member_injective_not_onto :
    (∀ k : tgdb_response_type, payload_member k = none ↔ k = TGDB_DISASSEMBLE_PC) ∧
    (∀ (k : tgdb_response_type) (m : choice_member),
        payload_member k = some m ↔ m.declared_header = k.ident) ∧
    (∀ (k1 k2 : tgdb_response_type) (m : choice_member),
        payload_member k1 = some m → payload_member k2 = some m → k1 = k2) ∧
    (∀ k : tgdb_response_type, payload_member k ≠ some choice_member.inferior_exited) ∧
    choice_member.inferior_exited.declared_header = "TGDB_INFERIOR_EXITED" ∧
    (∀ k : tgdb_response_type, k.ident ≠ "TGDB_INFERIOR_EXITED") ∧
    (∀ m : choice_member, m ≠ choice_member.inferior_exited →
        ∃ k : tgdb_response_type, payload_member k = some m) := by
  refine ⟨by decide, by decide, by decide, by decide, rfl, by decide, by decide⟩

/-! ## The response record -/

/-- C1, as stated, fails: the record with header `TGDB_QUIT` and the
`update_breakpoints` payload is a value of `struct tgdb_response`, although
the member declared for `TGDB_QUIT` is `quit`. -/
theorem response_quit_with_breakpoints_payload :
    (tgdb_response.mk TGDB_QUIT (.update_breakpoints [])).header = TGDB_QUIT ∧
    (tgdb_response.mk TGDB_QUIT (.update_breakpoints [])).choice.member =
      choice_member.update_breakpoints ∧
    payload_member TGDB_QUIT = some choice_member.quit ∧
    ¬ (tgdb_response.mk TGDB_QUIT (.update_breakpoints [])).matches_header ∧
    ¬ (∀ r : tgdb_response, r.matches_header) := by
  refine ⟨rfl, rfl, by decide, by decide, fun hall => ?_⟩
  exact absurd (hall ⟨TGDB_QUIT, .update_breakpoints []⟩) (by decide)

/-- C1, amended: `struct tgdb_response` does not tie `choice` to `header`.
For every response kind and every member of the union there is a response
value with that header holding that member; it holds the payload declared for
its header exactly when the member is the one declared for the kind. -/
theorem response_header_payload_independent (k : tgdb_response_type) (m : choice_member) :
    ∃ r : tgdb_response, r.header = k ∧ r.choice.member = m ∧
      (r.matches_header ↔ payload_member k = some m) := by
  refine ⟨⟨k, m.zero⟩, rfl, ?_, ?_⟩
  · cases m <;> rfl
  · have hm : m.zero.member = m := by cases m <;> rfl
    simp [tgdb_response.matches_header, hm]

/-! ## Factory and release -/

/-- C2: for every response kind `k`, `tgdb_create_response k` returns a
response whose header is `k` and whose payload is zero: every pointer or
sequence field is `NULL`/empty and every numeric field is 0; when a member is
declared for `k`, the payload is that member. -/
theorem create_response_header_and_zero_payload (k : tgdb_response_type) (h : Heap) :
    (tgdb_create_response k h).1.header = k ∧
    (tgdb_create_response k h).1.choice.is_zero = true ∧
    (∀ m, payload_member k = some m → (tgdb_create_response k h).1.choice = m.zero) ∧
    (k ≠ TGDB_DISASSEMBLE_PC → (tgdb_create_response k h).1.matches_header) ∧
    (tgdb_create_response k h).2.live = h.live + 1 := by
  refine ⟨rfl, ?_, ?_, ?_, rfl⟩
  · cases k <;> rfl
  · intro m hm
    simp [tgdb_create_response, hm]
  · intro hk
    cases k <;> first | exact absurd rfl hk | (show payload_member _ = some _; rfl)

/-- C3: for every response kind `k`, releasing the response that
`tgdb_create_response k` returns succeeds, with status 0, and gives back the
heap as it was before the creation; this includes the kinds whose payload is
an empty sequence. -/
theorem delete_created_response_succeeds (k : tgdb_response_type) (h : Heap) :
    tgdb_delete_response (some (tgdb_create_response k h).1) (tgdb_create_response k h).2 =
      some (0, h) := by
  have hw : (tgdb_create_response k h).1.walk = some 0 := by cases k <;> rfl
  have hl : (tgdb_create_response k h).2.live = h.live + 1 := rfl
  simp only [tgdb_delete_response, hw, hl]
  simp

/-! ## Request construction -/

/-- C5: constructing a `TGDB_REQUEST_MODIFY_BREAKPOINT` request fails if and
only if `file` is `NULL` and `addr` is 0; every request with a non-`NULL`
file or a non-zero `addr` is accepted, with the given fields. -/
theorem modify_breakpoint_fails_iff_no_location (file : Option String) (line : Int)
    (addr : Nat) (b : tgdb_breakpoint_action) :
    ((∃ e, tgdb_request_modify_breakpoint file line addr b = .error e) ↔
        (file = none ∧ addr = 0)) ∧
    ((file ≠ none ∨ addr ≠ 0) ↔
        tgdb_request_modify_breakpoint file line addr b =
          .ok ⟨TGDB_REQUEST_MODIFY_BREAKPOINT, .modify_breakpoint file line addr b⟩) := by
  unfold tgdb_request_modify_breakpoint
  cases file <;> rcases Nat.eq_zero_or_pos addr with ha | ha
  · subst ha; simp
  · have : addr ≠ 0 := Nat.pos_iff_ne_zero.mp ha
    simp [this]
  · subst ha; simp
  · have : addr ≠ 0 := Nat.pos_iff_ne_zero.mp ha
    simp [this]

/-! ## Event stream -/

/-- From `Terminated` only the empty sequence can be produced. -/
theorem produce_all_terminated (d rs : List tgdb_response) :
    event_stream.produce_all ⟨.Terminated, d⟩ rs =
      if rs = [] then .ok ⟨.Terminated, d⟩ else .error .ProtocolSequenceError := by
  cases rs with
  | nil => rfl
  | cons r rs => rfl

/-- A response that is not a quit in front of a sequence does not change
whether quit occurs only last. -/
theorem quit_only_last_cons (r : tgdb_response) (rs : List tgdb_response)
    (hr : r.header ≠ TGDB_QUIT) : quit_only_last (r :: rs) = quit_only_last rs := by
  cases rs with
  | nil => rfl
  | cons r1 rs => simp [quit_only_last, hr]

/-- A response in front of a non-empty sequence does not change how the
sequence ends. -/
theorem ends_with_quit_cons (r r1 : tgdb_response) (rs : List tgdb_response) :
    ends_with_quit (r :: r1 :: rs) = ends_with_quit (r1 :: rs) := by
  simp [ends_with_quit, List.getLast?_cons_cons]

/-- Closed form of a run from `Active`: it succeeds exactly on the sequences
in which quit occurs only last, delivers them whole, and ends `Terminated`
exactly when the sequence ends with quit. -/
theorem produce_all_active (rs : List tgdb_response) : ∀ d : List tgdb_response,
    event_stream.produce_all ⟨.Active, d⟩ rs =
      if quit_only_last rs = true then
        .ok ⟨if ends_with_quit rs = true then .Terminated else .Active, d ++ rs⟩
      else .error .ProtocolSequenceError := by
  induction rs with
  | nil => intro d; simp [event_stream.produce_all, quit_only_last, ends_with_quit]
  | cons r rs ih =>
    intro d
    by_cases hr : r.header = TGDB_QUIT
    · have hstep : event_stream.produce_all ⟨.Active, d⟩ (r :: rs) =
          event_stream.produce_all ⟨.Terminated, d ++ [r]⟩ rs := by
        simp [event_stream.produce_all, event_stream.produce, hr]
      rw [hstep, produce_all_terminated]
      cases rs with
      | nil => simp [quit_only_last, ends_with_quit, hr]
      | cons r1 rs => simp [quit_only_last, hr]
    · have hstep : event_stream.produce_all ⟨.Active, d⟩ (r :: rs) =
          event_stream.produce_all ⟨.Active, d ++ [r]⟩ rs := by
        simp [event_stream.produce_all, event_stream.produce, hr]
      rw [hstep, ih, quit_only_last_cons r rs hr]
      cases rs with
      | nil => simp [ends_with_quit, hr]
      | cons r1 rs => rw [ends_with_quit_cons]; simp

/-- Quit occurs only last: whenever the sequence splits around a quit
response, nothing follows it. -/
theorem quit_only_last_iff (rs : List tgdb_response) :
    quit_only_last rs = true ↔
      ∀ (pre : List tgdb_response) (r : tgdb_response) (post : List tgdb_response),
        rs = pre ++ r :: post → r.header = TGDB_QUIT → post = [] := by
  induction rs with
  | nil =>
    constructor
    · intro _ pre r post h; simp at h
    · intro _; rfl
  | cons a rs ih =>
    cases rs with
    | nil =>
      constructor
      · intro _ pre r post h _
        cases pre with
        | nil => simp at h; exact h.2
        | cons p pre => simp at h
      · intro _; rfl
    | cons b rs =>
      constructor
      · intro hq pre r post h hquit
        simp only [quit_only_last, Bool.and_eq_true, bne_iff_ne, ne_eq] at hq
        cases pre with
        | nil =>
          simp only [List.nil_append, List.cons.injEq] at h
          exact absurd (h.1 ▸ hquit) hq.1
        | cons p pre =>
          simp only [List.cons_append, List.cons.injEq] at h
          exact (ih.mp hq.2) pre r post h.2 hquit
      · intro hall
        simp only [quit_only_last, Bool.and_eq_true, bne_iff_ne, ne_eq]
        constructor
        · intro ha
          have := hall [] a (b :: rs) rfl ha
          simp at this
        · exact ih.mpr (fun pre r post h hquit => hall (a :: pre) r post (by simp [h]) hquit)

/-- C4: the event stream starts `Active`; a sequence of responses is delivered
whole exactly when quit occurs in it only as the last element, and any other
sequence is reported as `ProtocolSequenceError`; a delivered sequence leaves
the stream `Terminated` exactly when it ends with quit, and from `Terminated`
every further response is reported as `ProtocolSequenceError`. -/
theorem event_stream_quit_is_last (rs : List tgdb_response) :
    event_stream.start.state = .Active ∧
    ((∃ s, event_stream.start.produce_all rs = .ok s) ↔
      ∀ (pre : List tgdb_response) (r : tgdb_response) (post : List tgdb_response),
        rs = pre ++ r :: post → r.header = TGDB_QUIT → post = []) ∧
    ((¬ ∃ s, event_stream.start.produce_all rs = .ok s) →
      event_stream.start.produce_all rs = .error .ProtocolSequenceError) ∧
    (∀ s, event_stream.start.produce_all rs = .ok s →
      s.delivered = rs ∧
      (s.state = .Terminated ↔ ends_with_quit rs = true) ∧
      (s.state = .Terminated →
        ∀ r, s.produce r = .error .ProtocolSequenceError) ∧
      (s.state = .Active → ∀ r, ∃ s1, s.produce r = .ok s1 ∧
        s1.delivered = rs ++ [r] ∧
        (s1.state = .Terminated ↔ r.header = TGDB_QUIT))) := by
  have hrun := produce_all_active rs []
  have hstart : event_stream.start = ⟨.Active, []⟩ := rfl
  rw [← hstart] at hrun
  refine ⟨rfl, ?_, ?_, ?_⟩
  · rw [← quit_only_last_iff, hrun]
    by_cases hq : quit_only_last rs = true <;> simp [hq]
  · rw [hrun]
    by_cases hq : quit_only_last rs = true <;> simp [hq]
  · intro s hs
    rw [hrun] at hs
    by_cases hq : quit_only_last rs = true
    · simp only [hq, if_true, Except.ok.injEq] at hs
      subst hs
      refine ⟨by simp, ?_, ?_, ?_⟩
      · by_cases he : ends_with_quit rs = true <;> simp [he]
      · intro hst r
        simp only [event_stream.produce]
        simp only at hst
        rw [hst]
      · intro hst r
        simp only at hst
        refine ⟨_, by simp only [event_stream.produce]; rw [hst], by simp, ?_⟩
        by_cases hr : r.header = TGDB_QUIT <;> simp [hr]
    · simp [hq] at hs

/-- Scenario D of the spec, by C4: a file-position update followed by quit
with exit status 0 and return value 1 is delivered whole and terminates the
stream, after which a further response is a `ProtocolSequenceError`. -/
theorem event_stream_quit_is_last_witness :
    (event_stream.start.produce_all
        [⟨TGDB_UPDATE_FILE_POSITION, .update_file_position none⟩,
         ⟨TGDB_QUIT, .quit 0 1⟩]).toOption.map event_stream.state = some .Terminated ∧
    ends_with_quit [⟨TGDB_UPDATE_FILE_POSITION, .update_file_position none⟩,
         ⟨TGDB_QUIT, .quit 0 1⟩] = true ∧
    event_stream.start.produce_all
        [⟨TGDB_QUIT, .quit 0 1⟩, ⟨TGDB_UPDATE_FILE_POSITION, .update_file_position none⟩] =
      .error .ProtocolSequenceError := by
  refine ⟨by decide, by decide, ?_⟩
  refine (event_stream_quit_is_last
    [⟨TGDB_QUIT, .quit 0 1⟩, ⟨TGDB_UPDATE_FILE_POSITION, .update_file_position none⟩]).2.2.1 ?_
  rintro ⟨s, hs⟩
  have h := (event_stream_quit_is_last
    [⟨TGDB_QUIT, .quit 0 1⟩, ⟨TGDB_UPDATE_FILE_POSITION, .update_file_position none⟩]).2.1.mp
    ⟨s, hs⟩ [] ⟨TGDB_QUIT, .quit 0 1⟩
    [⟨TGDB_UPDATE_FILE_POSITION, .update_file_position none⟩] rfl rfl
  exact absurd h (by simp)

end Tgdb
